import Mathlib

/-!
Verification of the GSAP animation-observability overlay of the
urbancooling/web repository.

Two generations of the debugger are embedded:

- `UCWeb.GB` — the v4.3.2 debugger (src/unnamed/part_001, after the
  separator at line 848): a Proxy over the gsap creation surface, the
  `track` / `markDone` / `attachSTEventWrappers` lifecycle tracker, the
  `renderLoop`, and the MutationObserver with overlay self-exclusion.

- `UCWeb.WD` — the v1.0.23 debugger (src/unnamed/part_000, the
  `monitorTween` family): the throttled onUpdate handler, the
  onComplete handler stamping `completedAt` and arming the eviction
  timeout, and the timeout guard that compares against the captured
  props object.

JS Maps keyed by object identity are embedded as association lists of
`Nat` handles; single-threaded callbacks become pure state-transition
functions; traces of host events are lists of operations folded over
the state.
-/

namespace UCWeb

/-- Lookup in an association list keyed by `Nat` handles (a JS Map keyed
by object identity; first match wins, keys are unique in a Map). -/
def lookupK {α : Type} : List (Nat × α) → Nat → Option α
  | [], _ => none
  | p :: t, h => if p.fst = h then some p.snd else lookupK t h

/-- Membership test, as JS `map.has(k)`. -/
def hasK {α : Type} (l : List (Nat × α)) (h : Nat) : Bool :=
  (lookupK l h).isSome

/-- In-place update of the value stored under a key (JS mutation of the
entry object held by the Map). -/
def setK {α : Type} : List (Nat × α) → Nat → α → List (Nat × α)
  | [], _, _ => []
  | p :: t, h, v => if p.fst = h then (h, v) :: setK t h v else p :: setK t h v

/-- Deletion, as JS `map.delete(k)`. -/
def eraseK {α : Type} : List (Nat × α) → Nat → List (Nat × α)
  | [], _ => []
  | p :: t, h => if p.fst = h then eraseK t h else p :: eraseK t h

/-- Lookup in a string-keyed association list (a plain JS object). -/
def lookupS {α : Type} : List (String × α) → String → Option α
  | [], _ => none
  | p :: t, k => if p.fst = k then some p.snd else lookupS t k

namespace GB

/-- A host-page DOM element as observed by `getElementIdentifier` in the
v4.3.2 debugger. `className = none` models a non-string className (the
JS code checks `typeof el.className` before using it); empty strings
model falsy `id` / `className` / `tagName` values. The `isWindow` and
`isBody` flags model the identity comparisons against `window` and
`document.body`. -/
structure JSElement where
  isWindow : Bool
  isBody : Bool
  id : String
  className : Option String
  tagName : String
  deriving DecidableEq, Repr

/-- JS `split(" ")` with the single-space separator, computed over the
character list by structural recursion. -/
def splitSpace : List Char → List (List Char)
  | [] => [[]]
  | c :: cs =>
    if c = ' ' then [] :: splitSpace cs
    else
      match splitSpace cs with
      | [] => [[c]]
      | g :: gs => (c :: g) :: gs

/-- First non-empty token of a className string, as
`className.split(" ").filter((c) => c)[0]`. -/
def firstClassToken (cn : String) : Option String :=
  (((splitSpace cn.toList).map (fun g => String.mk g)).filter (fun c => c ≠ "")).head?

/-- Tail of `getElementIdentifier`: tag-name fallback,
`el.tagName ? "<" + el.tagName.toLowerCase() + ">" : "Unknown"`. -/
def tagFallback (el : JSElement) : String :=
  if el.tagName ≠ "" then "<" ++ el.tagName.toLower ++ ">" else "Unknown"

/-- `getElementIdentifier` of src/unnamed/part_001 (lines 878-888):
null guard, window and body identity checks, then id, first class
token, tag name, literal "Unknown". A `none` argument models a
null/undefined element. -/
def getElementIdentifier (oel : Option JSElement) : String :=
  match oel with
  | none => "N/A"
  | some el =>
    if el.isWindow then "Window"
    else if el.isBody then "Body"
    else if el.id ≠ "" then "#" ++ el.id
    else
      match el.className with
      | some cn =>
        if cn ≠ "" then
          match firstClassToken cn with
          | some cls => "." ++ cls
          | none => tagFallback el
        else tagFallback el
      | none => tagFallback el

/-- A JS value stored in `tween.vars`. -/
inductive JSVal where
  | vnum (n : Int)
  | vstr (s : String)
  | vbool (b : Bool)
  | vfun
  deriving DecidableEq, Repr

/-- `typeof v === "function"`. -/
def JSVal.isFunction : JSVal → Bool
  | JSVal.vfun => true
  | _ => false

/-- A runtime animation object (tween, timeline or ScrollTrigger
instance) as consulted by `track`. `handle` is the object identity.
`hasTargetsFn` models `typeof inst.targets === "function"`;
`durationFn` / `repeatFn` model `duration` / `repeat` being functions
and the value they return; `vars = none` models a missing vars object. -/
structure GsapInst where
  handle : Nat
  hasTargetsFn : Bool
  targetsList : List (Option JSElement)
  durationFn : Option Int
  repeatFn : Option Int
  vars : Option (List (String × JSVal))
  deriving DecidableEq, Repr

/-- `typeof inst.targets === "function" ? inst.targets() : []`. -/
def instTargets (inst : GsapInst) : List (Option JSElement) :=
  if inst.hasTargetsFn then inst.targetsList else []

/-- `targets[0]`: undefined on an empty array, else the stored value
(which may itself be null). -/
def jsIndex0 (l : List (Option JSElement)) : Option JSElement :=
  l.head?.join

/-- The `repeatVal` computed by guard 3 of `track`:
`typeof inst.repeat === "function" ? inst.repeat() : inst.vars && inst.vars.repeat`. -/
def repeatVal (inst : GsapInst) : Option JSVal :=
  match inst.repeatFn with
  | some r => some (JSVal.vnum r)
  | none =>
    match inst.vars with
    | some vs => lookupS vs "repeat"
    | none => none

inductive TType where
  | tween
  | timeline
  | scrollTrigger
  deriving DecidableEq, Repr

inductive TStatus where
  | playing
  | completed
  deriving DecidableEq, Repr

/-- The per-instance record stored in the `tracked` Map by `track`. -/
structure TrackInfo where
  id : String
  ty : TType
  status : TStatus
  progress : Int
  vars : List (String × JSVal)
  target : String
  deriving DecidableEq, Repr

/-- The vars snapshot built at registration: every key whose value is
not a function, excluding onComplete and onStart. -/
def copyVars (vs : List (String × JSVal)) : List (String × JSVal) :=
  vs.filter (fun kv =>
    !kv.snd.isFunction && kv.fst != "onComplete" && kv.fst != "onStart")

/-- The debugger state of the v4.3.2 script: the `hold` and `vars`
feature flags, the `tracked` Map (instance handle to TrackInfo, in
insertion order), the `stWrapped` WeakSet, the pending
`tracked.delete` timeouts armed by `markDone` as (handle, fire time)
pairs, and the log queue. `stWrapAttach` is proof instrumentation: one
element is appended each time `attachSTEventWrappers` wraps an
instance, so that wrap applications can be counted. -/
structure DbgState where
  hold : Bool
  varsFlag : Bool
  tracked : List (Nat × TrackInfo)
  stWrapped : List Nat
  timers : List (Nat × Nat)
  logQueue : List String
  stWrapAttach : List Nat
  deriving DecidableEq, Repr

def FADE_OUT_MS : Nat := 3000

/-- `track(inst, type)` of src/unnamed/part_001 (lines 1030-1081):
null guard, the five skip guards, then registration and event
wrapping. The generated id (Date.now + Math.random) is passed in as
`fid`. -/
def track (s : DbgState) (oinst : Option GsapInst) (ty : TType) (fid : String) : DbgState :=
  match oinst with
  | none => s
  | some inst =>
    let targets := instTargets inst
    if targets.isEmpty then s
    else if ty = TType.tween ∧ inst.durationFn = some 0 then s
    else if ty = TType.tween ∧ repeatVal inst = some (JSVal.vnum (-1)) then s
    else
      let ident := getElementIdentifier (jsIndex0 targets)
      if ident = "Unknown" ∨ ident = "N/A" then s
      else if hasK s.tracked inst.handle then s
      else
        let vars := match inst.vars with
          | some vs => copyVars vs
          | none => []
        { s with tracked := s.tracked ++
            [(inst.handle,
              { id := fid, ty := ty, status := TStatus.playing, progress := 0,
                vars := vars, target := ident })] }

/-- `markDone(inst)` (lines 1004-1010): mark the tracked entry
completed and, unless the hold flag is set, arm a `tracked.delete`
timeout for FADE_OUT_MS later. `now` is the clock at the completion
signal. -/
def markDone (s : DbgState) (h : Nat) (now : Nat) : DbgState :=
  match lookupK s.tracked h with
  | none => s
  | some info =>
    let s1 := { s with tracked := setK s.tracked h { info with status := TStatus.completed } }
    if s.hold then s1
    else { s1 with timers := s1.timers ++ [(h, now + FADE_OUT_MS)] }

/-- The body of the timeout armed by `markDone`:
`() => tracked.delete(inst)`, unconditional. Firing consumes the
pending timer; a timer that was never armed cannot fire. -/
def timerFire (s : DbgState) (h : Nat) (t : Nat) : DbgState :=
  if (h, t) ∈ s.timers then
    { s with timers := s.timers.erase (h, t), tracked := eraseK s.tracked h }
  else s

/-- The hold toggle button click handler: flips and persists
`state.hold`, then calls `handleToggle("hold", on)`, which has no
branch for the hold key and therefore touches neither `tracked` nor
the pending timers. -/
def toggleHold (s : DbgState) (b : Bool) : DbgState :=
  { s with hold := b }

/-- One iteration of the `ScrollTrigger.getAll().forEach` loop in
`attachSTEventWrappers` (lines 1087-1095): instances already in the
`stWrapped` WeakSet are skipped; otherwise the instance is tracked as
a scrollTrigger and added to the set. -/
def attachSTStep (s : DbgState) (inst : GsapInst) : DbgState :=
  if inst.handle ∈ s.stWrapped then s
  else
    let s1 := track s (some inst) TType.scrollTrigger ("st_" ++ toString inst.handle)
    { s1 with stWrapped := s1.stWrapped ++ [inst.handle],
              stWrapAttach := s1.stWrapAttach ++ [inst.handle] }

/-- `attachSTEventWrappers()` over the current `ScrollTrigger.getAll()`
list. -/
def attachSTEventWrappers (s : DbgState) (sts : List GsapInst) : DbgState :=
  sts.foldl attachSTStep s

/-- One list row produced by `renderLoop` for a tracked entry: the
element id attribute, the type, target and status markup, the
displayed progress, and the serialized vars block when the vars flag
is on. -/
structure RenderItem where
  rid : String
  ty : TType
  target : String
  status : TStatus
  progress : Int
  varsShown : Option (List (String × JSVal))
  deriving DecidableEq, Repr

/-- `info.progress = info.inst.progress()` inside the render loop,
wrapped in try/catch: `prog h = none` models the read throwing, in
which case the stored progress is left as it was. -/
def sampleProgress (prog : Nat → Option Int) (h : Nat) (info : TrackInfo) : TrackInfo :=
  match prog h with
  | some p => { info with progress := p }
  | none => info

/-- The row built for one entry after its progress refresh. -/
def renderEntry (showVars : Bool) (info : TrackInfo) : RenderItem :=
  { rid := info.id, ty := info.ty, target := info.target, status := info.status,
    progress := info.progress,
    varsShown := if showVars then some info.vars else none }

/-- `renderLoop()` of src/unnamed/part_001 (lines 1151-1169): clears
the list element, then for every tracked entry refreshes
`info.progress` from the runtime handle and appends a row; finally
writes the scroll position. `prog` is the oracle for
`info.inst.progress()` reads and `scrollY` for `window.scrollY`.
Returns the mutated debugger state together with the overlay output
(the row list and the scroll line). -/
def renderLoop (s : DbgState) (prog : Nat → Option Int) (scrollY : Int) :
    DbgState × (List RenderItem × Int) :=
  let tracked2 := s.tracked.map (fun p => (p.fst, sampleProgress prog p.fst p.snd))
  ({ s with tracked := tracked2 },
   (tracked2.map (fun p => renderEntry s.varsFlag p.snd), scrollY))

/-- A DOM node as seen by the MutationObserver callback: its nodeType,
the element view used for the log message, and whether
`container.contains(node)` holds (the node lies in the overlay
subtree). -/
structure MNode where
  nodeType : Nat
  elem : Option JSElement
  inOverlay : Bool
  deriving DecidableEq, Repr

/-- A MutationRecord as consumed by the observer callback. -/
structure MutationRecord where
  target : MNode
  addedNodes : List MNode
  removedNodes : List MNode
  mtype : String
  attributeName : Option String
  deriving DecidableEq, Repr

/-- The skip condition of the observer callback in `startDOMObserver`
(lines 1121-1137): the target is inside the overlay, or some added or
removed node with nodeType 1 is inside the overlay. -/
def recordTouchesOverlay (m : MutationRecord) : Bool :=
  m.target.inOverlay ||
  m.addedNodes.any (fun n => n.nodeType == 1 && n.inOverlay) ||
  m.removedNodes.any (fun n => n.nodeType == 1 && n.inOverlay)

/-- The log message enqueued for a qualifying record. -/
def domLogMessage (m : MutationRecord) : String :=
  "[DOM] " ++ getElementIdentifier m.target.elem ++ " " ++ m.mtype ++
    (match m.attributeName with
     | some a => " " ++ a
     | none => "")

/-- Processing of one MutationRecord: skipped records enqueue nothing. -/
def processRecord (m : MutationRecord) : Option String :=
  if recordTouchesOverlay m then none else some (domLogMessage m)

/-- The full observer callback over a batch of records, appending to
the log queue via `enqueueLog`. -/
def processRecords (queue : List String) (records : List MutationRecord) : List String :=
  queue ++ records.filterMap processRecord

/-- A gsap creation method: applied to the argument list, it either
returns the new instance or throws. -/
def CreateFn : Type := List String → Except String GsapInst

/-- The wrapped method names checked by the Proxy get trap. -/
def creationNames : List String := ["to", "from", "fromTo", "set", "timeline"]

/-- The type tag passed to `track` by the Proxy wrapper. -/
def typeForName (p : String) : TType :=
  if p = "timeline" then TType.timeline else TType.tween

/-- The Proxy get trap on `window.gsap` (lines 1178-1195), together
with the invocation of whatever it returns: for a function-valued
property whose name is a creation name it returns the wrapper
`(...args) => { const inst = v.apply(t, args); track(inst, ...); return inst; }`;
any other function property is returned unwrapped, so calling it
leaves the tracker untouched. `none` means the property is not a
function and no call is modelled. -/
def proxyCall (origMethods : String → Option CreateFn) (p : String) (s : DbgState)
    (fid : String) (args : List String) :
    Option (DbgState × Except String GsapInst) :=
  match origMethods p with
  | some v =>
    if p ∈ creationNames then
      some (match v args with
        | Except.error e => (s, Except.error e)
        | Except.ok inst => (track s (some inst) (typeForName p) fid, Except.ok inst))
    else some (s, v args)
  | none => none

/-- The creation overrides installed by `setupGsapTracking` in
src/webflow-debug.js (lines 690-714):
`gsap.to = function(...args) { const tween = originalTo.apply(gsap, args); monitorTween(tween); return tween; }`.
The monitor function is abstract state instrumentation over any state
type. A thrown error skips the monitor call and propagates. -/
def overrideCreate {σ : Type} (origFn : CreateFn) (monitor : GsapInst → σ → σ)
    (ms : σ) (args : List String) : σ × Except String GsapInst :=
  match origFn args with
  | Except.error e => (ms, Except.error e)
  | Except.ok inst => (monitor inst ms, Except.ok inst)

/-- The host events that drive the v4.3.2 debugger state. `create`
covers both the Proxy wrappers and the initial cold scan; `complete`
is the onComplete / onReverseComplete path into `markDone`; `fire` is
a pending deletion timeout firing; `setHold` is a click on the hold
toggle; `refresh` is the ScrollTrigger refresh listener calling
`attachSTEventWrappers`; `render` is one render tick, with the
progress readings given as a finite table. -/
inductive DbgOp where
  | create (oinst : Option GsapInst) (ty : TType) (fid : String)
  | complete (h : Nat) (now : Nat)
  | fire (h : Nat) (t : Nat)
  | setHold (b : Bool)
  | refresh (sts : List GsapInst)
  | render (pl : List (Nat × Int)) (scrollY : Int)

/-- Whether an event is a deletion-timeout firing. -/
def DbgOp.isFire : DbgOp → Bool
  | DbgOp.fire _ _ => true
  | _ => false

def step (s : DbgState) : DbgOp → DbgState
  | DbgOp.create oinst ty fid => track s oinst ty fid
  | DbgOp.complete h now => markDone s h now
  | DbgOp.fire h t => timerFire s h t
  | DbgOp.setHold b => toggleHold s b
  | DbgOp.refresh sts => attachSTEventWrappers s sts
  | DbgOp.render pl sy => (renderLoop s (fun h => lookupK pl h) sy).fst

def run (s : DbgState) (ops : List DbgOp) : DbgState :=
  ops.foldl step s

/-- The state right after boot: flags read from localStorage, nothing
tracked, no wrapper applied, no timer pending. -/
def initState (hold0 vars0 : Bool) : DbgState :=
  { hold := hold0, varsFlag := vars0, tracked := [], stWrapped := [],
    timers := [], logQueue := [], stWrapAttach := [] }

end GB

namespace WD

inductive PStatus where
  | playing
  | completed
  deriving DecidableEq, Repr

/-- The value object stored in `activeAnimations` by the v1.0.23
debugger (src/unnamed/part_000): status, the `completedAt` timestamp,
the per-animation `lastUpdated` throttle timestamp, the `current` live
snapshot, and the static snapshot of var names taken at registration. -/
structure Props where
  status : PStatus
  completedAt : Option Nat
  lastUpdated : Nat
  current : List (String × Int)
  statics : List String
  deriving DecidableEq, Repr

/-- A GSAP tween as consulted by `monitorTween`: its identity, the
names of the non-excluded, non-function keys of `tween.vars`, and
whether `tween.targets()[0]` is truthy. -/
structure Tween where
  handle : Nat
  varsProps : List String
  hasTarget : Bool
  deriving DecidableEq, Repr

/-- A pending `setTimeout` armed by the onComplete handler. The closure
captures the tween and the props object (`objId` is the identity of
the object the variable `props` referred to when the timer was
armed). -/
structure EvTimer where
  tween : Nat
  objId : Nat
  fireAt : Nat
  deriving DecidableEq, Repr

/-- The shared mutable state of the v1.0.23 debugger. JS props objects
live in `heap` keyed by identity; `amap` is the `activeAnimations` Map
from tween handle to the identity of its props object. `nextObj`
allocates fresh object identities. -/
structure AnimState where
  nextObj : Nat
  heap : List (Nat × Props)
  amap : List (Nat × Nat)
  timers : List EvTimer
  deriving DecidableEq, Repr

def UPDATE_THROTTLE_INTERVAL : Nat := 50

def COMPLETED_ANIMATION_DISPLAY_DURATION : Nat := 3000

/-- The props object built at registration (line 248):
`{..., current: {}, status: "playing", completedAt: null, lastUpdated: 0}`. -/
def initProps (tw : Tween) : Props :=
  { status := PStatus.playing, completedAt := none, lastUpdated := 0,
    current := [], statics := tw.varsProps }

/-- The props object rebuilt inside onUpdate when the tween is no
longer in the Map (line 268): identical except `lastUpdated: Date.now()`. -/
def reinitProps (tw : Tween) (now : Nat) : Props :=
  { status := PStatus.playing, completedAt := none, lastUpdated := now,
    current := [], statics := tw.varsProps }

/-- Placeholder for the impossible read of a heap identity that has no
object; the state invariant rules this out. -/
def defaultProps : Props :=
  { status := PStatus.playing, completedAt := none, lastUpdated := 0,
    current := [], statics := [] }

/-- `Object.assign(props.current, liveUpdates)` for one key: update in
place when present, else append. -/
def upsertS (l : List (String × Int)) (k : String) (v : Int) : List (String × Int) :=
  if l.any (fun p => p.fst == k) then
    l.map (fun p => if p.fst = k then (k, v) else p)
  else l ++ [(k, v)]

def assignKV (cur : List (String × Int)) (kvs : List (String × Int)) : List (String × Int) :=
  kvs.foldl (fun acc kv => upsertS acc kv.fst kv.snd) cur

/-- The fixed property list walked by the onUpdate sampler (line 283). -/
def coreTransformProps : List String :=
  ["x", "y", "rotation", "scaleX", "scaleY", "opacity", "progress", "time"]

/-- The `liveUpdates` object built by one sampling pass: a key
`current_<prop>` for every core prop the tween animates plus progress
and time, each read from the runtime via the `read` oracle. -/
def liveUpdates (tw : Tween) (read : String → Int) : List (String × Int) :=
  (coreTransformProps.filter
      (fun p => p ∈ tw.varsProps || p == "progress" || p == "time")).map
    (fun p => ("current_" ++ p, read p))

/-- The registration half of `monitorTween` (lines 233-250): when the
debugger and the core-animations section are enabled and the tween is
not yet in the Map, allocate a fresh props object and insert it. -/
def registerTween (s : AnimState) (tw : Tween) (en : Bool) : AnimState :=
  if en then
    match lookupK s.amap tw.handle with
    | some _ => s
    | none =>
      let o := s.nextObj
      { s with nextObj := o + 1, heap := s.heap ++ [(o, initProps tw)],
               amap := s.amap ++ [(tw.handle, o)] }
  else s

/-- The onUpdate handler attached by `monitorTween` (lines 253-296):
flag gate, re-registration of a cleared tween, the 50 ms throttle
check against `props.lastUpdated`, the live-property read, and the
unconditional reset to playing with `completedAt = null`. `read` is
the oracle for `gsap.getProperty` / `tween.progress()` /
`tween.time()`. -/
def onUpdate (s : AnimState) (tw : Tween) (now : Nat) (read : String → Int)
    (en : Bool) : AnimState :=
  if en then
    let t3 :=
      match lookupK s.amap tw.handle with
      | some o => (s, o, (lookupK s.heap o).getD defaultProps)
      | none =>
        let o := s.nextObj
        let p := reinitProps tw now
        ({ s with nextObj := o + 1, heap := s.heap ++ [(o, p)],
                  amap := s.amap ++ [(tw.handle, o)] }, o, p)
    let s1 := t3.fst
    let o := t3.snd.fst
    let p := t3.snd.snd
    if now - p.lastUpdated < UPDATE_THROTTLE_INTERVAL then s1
    else
      let p1 := { p with lastUpdated := now }
      let p2 :=
        if tw.hasTarget then
          { p1 with current := assignKV p1.current (liveUpdates tw read) }
        else p1
      let p3 := { p2 with status := PStatus.playing, completedAt := none }
      { s1 with heap := setK s1.heap o p3 }
  else s

/-- The onComplete / onReverseComplete handler (lines 299-329): when
enabled and tracked, mark the props object completed, stamp
`completedAt = Date.now()`, and arm the display-retention timeout
whose closure captures the props object; otherwise delete the tween
from the Map. -/
def onComplete (s : AnimState) (tw : Tween) (now : Nat) (en : Bool) : AnimState :=
  if en then
    match lookupK s.amap tw.handle with
    | some o =>
      let p := (lookupK s.heap o).getD defaultProps
      { s with
          heap := setK s.heap o
            ({ p with status := PStatus.completed, completedAt := some now }),
          timers := s.timers ++
            [{ tween := tw.handle, objId := o,
               fireAt := now + COMPLETED_ANIMATION_DISPLAY_DURATION }] }
    | none => { s with amap := eraseK s.amap tw.handle }
  else { s with amap := eraseK s.amap tw.handle }

/-- The timeout body armed by onComplete (lines 305-309):
`if (activeAnimations.has(tween) && activeAnimations.get(tween).completedAt === props.completedAt) activeAnimations.delete(tween);`
where `props` is the captured object reference, whose field is read at
fire time. Firing consumes the pending timer. -/
def timerCb (s : AnimState) (tm : EvTimer) : AnimState :=
  if tm ∈ s.timers then
    let s1 := { s with timers := s.timers.erase tm }
    match lookupK s1.amap tm.tween with
    | some o =>
      let cur := (lookupK s1.heap o).getD defaultProps
      let cap := (lookupK s1.heap tm.objId).getD defaultProps
      if cur.completedAt = cap.completedAt then
        { s1 with amap := eraseK s1.amap tm.tween }
      else s1
    | none => s1
  else s

/-- One entry of the 100 ms UI interval (lines 825-844): for a tween
still active it merges a fresh sample into `props.current`, touching
neither status nor `completedAt`. `active` models
`tween.progress() < 1 && !tween.paused() && !tween.reversed()`. -/
def uiTick (s : AnimState) (tw : Tween) (active : Bool) (read : String → Int)
    (en : Bool) : AnimState :=
  if en then
    match lookupK s.amap tw.handle with
    | some o =>
      match lookupK s.heap o with
      | some p =>
        if tw.hasTarget && active then
          let p2 := { p with current := assignKV p.current (liveUpdates tw read) }
          { s with heap := setK s.heap o p2 }
        else s
      | none => s
    | none => s
  else s

/-- `activeAnimations.clear()` (run when the core-animations checkbox
is unchecked, lines 631 and 722). -/
def clearAnims (s : AnimState) : AnimState :=
  { s with amap := [] }

/-- The host events driving the v1.0.23 debugger state. -/
inductive AnimEv where
  | reg (tw : Tween) (en : Bool)
  | upd (tw : Tween) (now : Nat) (read : String → Int) (en : Bool)
  | done (tw : Tween) (now : Nat) (en : Bool)
  | fire (tm : EvTimer)
  | ui (tw : Tween) (active : Bool) (read : String → Int) (en : Bool)
  | clear

def stepB (s : AnimState) : AnimEv → AnimState
  | AnimEv.reg tw en => registerTween s tw en
  | AnimEv.upd tw now read en => onUpdate s tw now read en
  | AnimEv.done tw now en => onComplete s tw now en
  | AnimEv.fire tm => timerCb s tm
  | AnimEv.ui tw active read en => uiTick s tw active read en
  | AnimEv.clear => clearAnims s

def runB (s : AnimState) (evs : List AnimEv) : AnimState :=
  evs.foldl stepB s

def initB : AnimState :=
  { nextObj := 0, heap := [], amap := [], timers := [] }

end WD


/-! Concrete fixtures used by witnesses and counterexamples. -/

open GB WD

/-- A plain host element with an explicit id. -/
def heroEl : JSElement :=
  { isWindow := false, isBody := false, id := "hero", className := none,
    tagName := "div" }

/-- A plain host element with only a class list. -/
def boxEl : JSElement :=
  { isWindow := false, isBody := false, id := "", className := some "box big",
    tagName := "div" }

/-- A trackable tween instance targeting `heroEl`. -/
def heroInst : GsapInst :=
  { handle := 1, hasTargetsFn := true, targetsList := [some heroEl],
    durationFn := some 1, repeatFn := some 0, vars := some [] }

/-- A trackable ScrollTrigger-like instance targeting `boxEl`. -/
def stInst : GsapInst :=
  { handle := 7, hasTargetsFn := true, targetsList := [some boxEl],
    durationFn := none, repeatFn := none, vars := none }

/-- An original creation method that always succeeds with `heroInst`. -/
def c1orig : CreateFn := fun _ => Except.ok heroInst

/-- An original creation method that always throws. -/
def c1bad : CreateFn := fun _ => Except.error "boom"

/-- A gsap object whose "to" property is `c1orig` and whose "kill"
property is a non-creation function. -/
def c1om : String → Option CreateFn := fun q =>
  if q = "to" then some c1orig
  else if q = "kill" then some c1bad
  else none

/-- A state in which `heroInst` is already tracked. -/
def c2state : DbgState :=
  track (initState false false) (some heroInst) TType.tween "w2"

/-- The entry registered for `heroInst` in `c2state`. -/
def c2info : TrackInfo :=
  { id := "w2", ty := TType.tween, status := TStatus.playing, progress := 0,
    vars := [], target := "#hero" }

/-- The props object stored for `c6tw` in `c6sA`. -/
def c6props : Props :=
  { status := PStatus.playing, completedAt := none, lastUpdated := 100,
    current := [("current_x", 100), ("current_progress", 100), ("current_time", 100)],
    statics := ["x"] }

/-- An event sequence that registers, completes, refreshes twice and
renders. -/
def c2ops : List DbgOp :=
  [DbgOp.create (some heroInst) TType.tween "a", DbgOp.refresh [stInst],
   DbgOp.complete 1 100, DbgOp.refresh [stInst], DbgOp.render [(1, 2)] 0,
   DbgOp.create (some heroInst) TType.tween "b"]

/-- The C3 trace: activate hold, register, complete under hold, clear
hold. -/
def c3ops : List DbgOp :=
  [DbgOp.setHold true, DbgOp.create (some heroInst) TType.tween "a",
   DbgOp.complete 1 100, DbgOp.setHold false]

def c3end : DbgState := run (initState false false) c3ops

/-- A tween instance with no targets function. -/
def c4aInst : GsapInst :=
  { handle := 11, hasTargetsFn := false, targetsList := [some heroEl],
    durationFn := some 1, repeatFn := some 0, vars := some [] }

/-- A zero-duration tween. -/
def c4bInst : GsapInst :=
  { handle := 12, hasTargetsFn := true, targetsList := [some heroEl],
    durationFn := some 0, repeatFn := some 0, vars := some [] }

/-- An unbounded-repeat tween. -/
def c4cInst : GsapInst :=
  { handle := 13, hasTargetsFn := true, targetsList := [some heroEl],
    durationFn := some 1, repeatFn := some (-1), vars := some [] }

/-- A monitored tween animating x. -/
def c5tw : Tween := { handle := 3, varsProps := ["x"], hasTarget := true }

def c5evs : List AnimEv := [AnimEv.reg c5tw true]

/-- A monitored tween animating x, for the throttle traces. -/
def c6tw : Tween := { handle := 0, varsProps := ["x"], hasTarget := true }

/-- State after registration and onUpdate callbacks at t = 100 (sampled)
and t = 140 (throttled). -/
def c6sA : AnimState :=
  runB initB
    [AnimEv.reg c6tw true,
     AnimEv.upd c6tw 100 (fun _ => (100 : Int)) true,
     AnimEv.upd c6tw 140 (fun _ => (140 : Int)) true]

/-- `c6sA` after one more onUpdate callback at t = 180, only 40 ms after
the callback at t = 140. -/
def c6sB : AnimState :=
  stepB c6sA (AnimEv.upd c6tw 180 (fun _ => (180 : Int)) true)

/-- A tracked entry and a state holding it, for the render-loop claims. -/
def c7info : TrackInfo :=
  { id := "i", ty := TType.tween, status := TStatus.playing, progress := 0,
    vars := [], target := "#hero" }

def c7state : DbgState :=
  { initState false false with tracked := [(1, c7info)] }

/-- A mutation record whose target lies inside the overlay subtree. -/
def c8rec : MutationRecord :=
  { target := { nodeType := 1, elem := some boxEl, inOverlay := true },
    addedNodes := [], removedNodes := [], mtype := "childList",
    attributeName := none }

/-- A record outside the overlay that adds one overlay element node. -/
def c8rec2 : MutationRecord :=
  { target := { nodeType := 1, elem := some heroEl, inOverlay := false },
    addedNodes := [{ nodeType := 1, elem := some boxEl, inOverlay := true }],
    removedNodes := [], mtype := "childList", attributeName := none }

/-- `document.body` carrying an explicit id attribute. -/
def c9body : JSElement :=
  { isWindow := false, isBody := true, id := "page", className := some "shell",
    tagName := "body" }

/-- An ordinary element used by the C9 witness. -/
def c9plain : JSElement :=
  { isWindow := false, isBody := false, id := "", className := some " big red",
    tagName := "DIV" }

/-- The monitored tween of the stale-timer trace. -/
def c10tw : Tween := { handle := 0, varsProps := ["x"], hasTarget := true }

/-- Stale-timer trace: register at t = 0, complete at t = 1000 (arming
the eviction timeout for t = 4000 and capturing props object 0), then
an onUpdate at t = 2000 resets the entry to playing with
completedAt = null. -/
def c10s3 : AnimState :=
  runB initB
    [AnimEv.reg c10tw true, AnimEv.done c10tw 1000 true,
     AnimEv.upd c10tw 2000 (fun _ => (0 : Int)) true]

/-- The timeout armed by the completion at t = 1000. -/
def c10timer : EvTimer := { tween := 0, objId := 0, fireAt := 4000 }

/-! Association-list lemmas. -/

theorem lookupK_append {α : Type} (l : List (Nat × α)) (k : Nat) (v : α) (h : Nat) :
    lookupK (l ++ [(k, v)]) h =
      match lookupK l h with
      | some w => some w
      | none => if k = h then some v else none := by
  induction l with
  | nil => simp [lookupK]
  | cons p t ih =>
    by_cases hp : p.fst = h
    · simp [lookupK, hp]
    · simp [lookupK, hp, ih]

theorem lookupK_setK_self {α : Type} (l : List (Nat × α)) (k : Nat) (v w : α)
    (hl : lookupK l k = some w) : lookupK (setK l k v) k = some v := by
  induction l with
  | nil => simp [lookupK] at hl
  | cons p t ih =>
    by_cases hp : p.fst = k
    · simp [setK, hp, lookupK]
    · simp [lookupK, hp] at hl
      simp [setK, hp, lookupK, ih hl]

theorem lookupK_setK_none {α : Type} (l : List (Nat × α)) (k : Nat) (v : α)
    (hl : lookupK l k = none) : setK l k v = l := by
  induction l with
  | nil => simp [setK]
  | cons p t ih =>
    by_cases hp : p.fst = k
    · simp [lookupK, hp] at hl
    · simp [lookupK, hp] at hl
      simp [setK, hp, ih hl]

theorem lookupK_setK_ne {α : Type} (l : List (Nat × α)) (k k' : Nat) (v : α)
    (hne : k' ≠ k) : lookupK (setK l k v) k' = lookupK l k' := by
  induction l with
  | nil => simp [setK]
  | cons p t ih =>
    by_cases hp : p.fst = k
    · have h1 : ¬ (k = k') := fun hc => hne hc.symm
      have h2 : ¬ (p.fst = k') := by rw [hp]; exact h1
      simp only [setK, if_pos hp, lookupK, if_neg h1, if_neg h2, ih]
    · by_cases hq : p.fst = k'
      · simp only [setK, if_neg hp, lookupK, if_pos hq]
      · simp only [setK, if_neg hp, lookupK, if_neg hq, ih]

theorem keys_setK {α : Type} (l : List (Nat × α)) (k : Nat) (v : α) :
    (setK l k v).map Prod.fst = l.map Prod.fst := by
  induction l with
  | nil => simp [setK]
  | cons p t ih =>
    by_cases hp : p.fst = k
    · simp [setK, hp, ih]
    · simp [setK, hp, ih]

theorem keys_eraseK_sublist {α : Type} (l : List (Nat × α)) (k : Nat) :
    ((eraseK l k).map Prod.fst).Sublist (l.map Prod.fst) := by
  induction l with
  | nil => simp [eraseK]
  | cons p t ih =>
    by_cases hp : p.fst = k
    · simp only [eraseK, hp, if_pos]
      exact ih.trans (List.sublist_cons_self _ _)
    · simp only [eraseK, hp, if_neg, not_false_iff, List.map_cons]
      exact ih.cons₂ _

theorem lookupK_none_iff_not_mem_keys {α : Type} (l : List (Nat × α)) (h : Nat) :
    lookupK l h = none ↔ h ∉ l.map Prod.fst := by
  induction l with
  | nil => simp [lookupK]
  | cons p t ih =>
    simp only [lookupK, List.map_cons, List.mem_cons]
    by_cases hp : p.fst = h
    · simp [hp]
    · simp only [if_neg hp, ih]
      constructor
      · intro hn hc
        rcases hc with hc | hc
        · exact hp hc.symm
        · exact hn hc
      · intro hn hc
        exact hn (Or.inr hc)


theorem lookupK_eraseK {α : Type} (l : List (Nat × α)) (h : Nat) :
    lookupK (eraseK l h) h = none := by
  induction l with
  | nil => rfl
  | cons p t ih =>
    by_cases hp : p.fst = h
    · simp [eraseK, hp, ih]
    · simp [eraseK, hp, lookupK, ih]

theorem hasK_setK {α : Type} (l : List (Nat × α)) (k h : Nat) (v : α) :
    hasK (setK l k v) h = hasK l h := by
  by_cases hk : h = k
  · subst hk
    unfold hasK
    cases hl : lookupK l h with
    | none => rw [lookupK_setK_none _ _ _ hl, hl]
    | some w =>
      simp [lookupK_setK_self l h v w hl, hl]
  · unfold hasK
    rw [lookupK_setK_ne _ _ _ _ hk]

theorem keys_map_entry {α β : Type} (l : List (Nat × α)) (g : Nat → α → β) :
    (l.map (fun p => (p.fst, g p.fst p.snd))).map Prod.fst = l.map Prod.fst := by
  induction l with
  | nil => rfl
  | cons p t ih => simp [ih]

theorem lookupK_map_entry {α β : Type} (l : List (Nat × α)) (g : Nat → α → β) (h : Nat) :
    lookupK (l.map (fun p => (p.fst, g p.fst p.snd))) h = (lookupK l h).map (g h) := by
  induction l with
  | nil => rfl
  | cons p t ih =>
    by_cases hp : p.fst = h
    · subst hp
      simp [lookupK, ih]
    · simp [lookupK, hp, ih]

theorem lookupK_setK_cases {α : Type} (l : List (Nat × α)) (o : Nat) (v : α) (k : Nat) (q : α)
    (h : lookupK (setK l o v) k = some q) : (k = o ∧ q = v) ∨ lookupK l k = some q := by
  induction l with
  | nil => simp [setK, lookupK] at h
  | cons p t ih =>
    by_cases hp : p.fst = o
    · by_cases hk : o = k
      · simp only [setK, if_pos hp, lookupK, if_pos hk] at h
        exact Or.inl ⟨hk.symm, (Option.some.inj h).symm⟩
      · simp only [setK, if_pos hp, lookupK, if_neg hk] at h
        rcases ih h with h1 | h2
        · exact Or.inl h1
        · right
          have hpk : ¬ (p.fst = k) := by rw [hp]; exact hk
          rw [lookupK, if_neg hpk]
          exact h2
    · by_cases hk : p.fst = k
      · simp only [setK, if_neg hp, lookupK, if_pos hk] at h
        right
        rw [lookupK, if_pos hk]
        exact h
      · simp only [setK, if_neg hp, lookupK, if_neg hk] at h
        rcases ih h with h1 | h2
        · exact Or.inl h1
        · right
          rw [lookupK, if_neg hk]
          exact h2

/-! Structural lemmas about `track`. -/

/-- `track` only ever touches the `tracked` field, and only by appending
one entry for a handle that was not yet tracked. -/
theorem track_frame (s : DbgState) (oinst : Option GsapInst) (ty : TType) (fid : String) :
    (track s oinst ty fid).hold = s.hold ∧
    (track s oinst ty fid).varsFlag = s.varsFlag ∧
    (track s oinst ty fid).stWrapped = s.stWrapped ∧
    (track s oinst ty fid).timers = s.timers ∧
    (track s oinst ty fid).logQueue = s.logQueue ∧
    (track s oinst ty fid).stWrapAttach = s.stWrapAttach ∧
    ((track s oinst ty fid).tracked = s.tracked ∨
      ∃ inst info, oinst = some inst ∧ hasK s.tracked inst.handle = false ∧
        (track s oinst ty fid).tracked = s.tracked ++ [(inst.handle, info)]) := by
  cases oinst with
  | none => exact ⟨rfl, rfl, rfl, rfl, rfl, rfl, Or.inl rfl⟩
  | some inst =>
    simp only [track]
    split_ifs with h1 h2 h3 h4 h5
    · exact ⟨rfl, rfl, rfl, rfl, rfl, rfl, Or.inl rfl⟩
    · exact ⟨rfl, rfl, rfl, rfl, rfl, rfl, Or.inl rfl⟩
    · exact ⟨rfl, rfl, rfl, rfl, rfl, rfl, Or.inl rfl⟩
    · exact ⟨rfl, rfl, rfl, rfl, rfl, rfl, Or.inl rfl⟩
    · exact ⟨rfl, rfl, rfl, rfl, rfl, rfl, Or.inl rfl⟩
    · refine ⟨rfl, rfl, rfl, rfl, rfl, rfl, Or.inr ?_⟩
      refine ⟨inst, _, rfl, ?_, rfl⟩
      exact Bool.not_eq_true _ ▸ eq_false_of_ne_true h5

theorem track_already_tracked (s : DbgState) (inst : GsapInst) (ty : TType) (fid : String)
    (h : hasK s.tracked inst.handle = true) : track s (some inst) ty fid = s := by
  simp only [track, h]
  split_ifs <;> rfl


/-! C4: the skip guards of track. -/

/-- Claim C4: for every object submitted to the interception layer,
registration is skipped (the state is unchanged, so no tracked entry is
created) when the object has no usable target: an empty target list, a
zero-duration tween, or a tween with an unbounded repeat count
(repeat equal to -1). -/
theorem c4_registration_skipped (s : DbgState) (inst : GsapInst) (ty : TType) (fid : String) :
    (instTargets inst = [] → track s (some inst) ty fid = s) ∧
    (ty = TType.tween → inst.durationFn = some 0 → track s (some inst) ty fid = s) ∧
    (ty = TType.tween → repeatVal inst = some (JSVal.vnum (-1)) →
      track s (some inst) ty fid = s) := by
  refine ⟨?_, ?_, ?_⟩
  · intro h
    simp [track, h]
  · intro ht hd
    simp only [track, ht, hd]
    split_ifs
    all_goals first | rfl | (exfalso; simp_all)
  · intro ht hr
    simp only [track, ht, hr]
    split_ifs
    all_goals first | rfl | (exfalso; simp_all)

/-- Witness for C4 at three concrete instances: one with no targets
function, one zero-duration tween, one unbounded-repeat tween. -/
theorem c4_registration_skipped_witness :
    instTargets c4aInst = [] ∧
    track c2state (some c4aInst) TType.tween "x" = c2state ∧
    track c2state (some c4bInst) TType.tween "x" = c2state ∧
    track c2state (some c4cInst) TType.tween "x" = c2state := by
  refine ⟨by decide, ?_, ?_, ?_⟩
  · exact (c4_registration_skipped c2state c4aInst TType.tween "x").1 (by decide)
  · exact (c4_registration_skipped c2state c4bInst TType.tween "x").2.1 rfl (by decide)
  · exact (c4_registration_skipped c2state c4cInst TType.tween "x").2.2 rfl (by decide)

/-! C9: the identifier resolver. -/

/-- Counterexample for C9 as stated: `document.body` carries an explicit
id attribute, yet `getElementIdentifier` does not return the id label
demanded by the id-first precedence; it returns the fixed label
"Body". -/
theorem c9_counterexample :
    c9body.id = "page" ∧
    getElementIdentifier (some c9body) = "Body" ∧
    getElementIdentifier (some c9body) ≠ "#" ++ c9body.id := by decide

/-- Claim C9 (amended): `identify` is total by construction, and the
precedence id attribute, then first class token, then tag name, then
the literal "Unknown" holds for every element that is not null, not
the window, and not `document.body`; those three inputs are mapped to
the fixed labels "N/A", "Window" and "Body" regardless of their id,
class or tag. -/
theorem c9_identifier_precedence (el : JSElement) (cn c : String) :
    getElementIdentifier none = "N/A" ∧
    (el.isWindow = true → getElementIdentifier (some el) = "Window") ∧
    (el.isWindow = false → el.isBody = true → getElementIdentifier (some el) = "Body") ∧
    (el.isWindow = false → el.isBody = false → el.id ≠ "" →
      getElementIdentifier (some el) = "#" ++ el.id) ∧
    (el.isWindow = false → el.isBody = false → el.id = "" →
      el.className = some cn → firstClassToken cn = some c →
      getElementIdentifier (some el) = "." ++ c) ∧
    (el.isWindow = false → el.isBody = false → el.id = "" →
      (el.className = none ∨ (el.className = some cn ∧ firstClassToken cn = none)) →
      getElementIdentifier (some el) = tagFallback el) ∧
    (el.tagName = "" → tagFallback el = "Unknown") ∧
    (el.tagName ≠ "" → tagFallback el = "<" ++ el.tagName.toLower ++ ">") := by
  refine ⟨rfl, ?_, ?_, ?_, ?_, ?_, ?_, ?_⟩
  · intro hw
    simp [getElementIdentifier, hw]
  · intro hw hb
    simp [getElementIdentifier, hw, hb]
  · intro hw hb hid
    simp [getElementIdentifier, hw, hb, hid]
  · intro hw hb hid hcn hft
    have hcne : cn ≠ "" := by
      intro hc
      rw [hc] at hft
      have hnone : firstClassToken "" = none := by decide
      rw [hnone] at hft
      exact Option.noConfusion hft
    simp [getElementIdentifier, hw, hb, hid, hcn, hcne, hft]
  · intro hw hb hid hcase
    rcases hcase with hnone | ⟨hsome, hft⟩
    · simp [getElementIdentifier, hw, hb, hid, hnone]
    · by_cases hcne : cn = ""
      · simp [getElementIdentifier, hw, hb, hid, hsome, hcne]
      · simp [getElementIdentifier, hw, hb, hid, hsome, hcne, hft]
  · intro ht
    simp [tagFallback, ht]
  · intro ht
    simp [tagFallback, ht]

/-- Witness for C9 (amended): the id branch on a plain element with an
id, and the class-token branch on a plain element whose className is
" big red". -/
theorem c9_identifier_precedence_witness :
    heroEl.isWindow = false ∧ heroEl.isBody = false ∧ heroEl.id ≠ "" ∧
    getElementIdentifier (some heroEl) = "#" ++ heroEl.id ∧
    getElementIdentifier (some c9plain) = "." ++ "big" := by
  refine ⟨rfl, rfl, by decide, ?_, ?_⟩
  · exact (c9_identifier_precedence heroEl "" "").2.2.2.1 rfl rfl (by decide)
  · exact (c9_identifier_precedence c9plain " big red" "big").2.2.2.2.1 rfl rfl rfl rfl
      (by decide)

/-! C8: MutationObserver self-exclusion. -/

/-- Claim C8: a mutation record whose target, or any of whose added or
removed element nodes, lies inside the overlay subtree enqueues no log
message; consequently a batch made only of such records leaves the log
queue unchanged. -/
theorem c8_observer_self_exclusion (queue : List String) (records : List MutationRecord)
    (m : MutationRecord)
    (hall : ∀ r ∈ records, recordTouchesOverlay r = true) :
    (recordTouchesOverlay m = true → processRecord m = none) ∧
    processRecords queue records = queue := by
  constructor
  · intro hm
    simp [processRecord, hm]
  · have key : ∀ rs : List MutationRecord,
        (∀ r ∈ rs, recordTouchesOverlay r = true) →
        rs.filterMap processRecord = [] := by
      intro rs
      induction rs with
      | nil => intro _; rfl
      | cons r t ih =>
        intro h2
        have hr : recordTouchesOverlay r = true := h2 r (by simp)
        have hnone : processRecord r = none := by simp [processRecord, hr]
        rw [List.filterMap_cons, hnone]
        exact ih (fun x hx => h2 x (by simp [hx]))
    simp [processRecords, key records hall]

/-- Witness for C8: a batch of two overlay-touching records (one with
overlay target, one adding an overlay element node) enqueues nothing. -/
theorem c8_observer_self_exclusion_witness :
    recordTouchesOverlay c8rec = true ∧ recordTouchesOverlay c8rec2 = true ∧
    processRecords ["m0"] [c8rec, c8rec2] = ["m0"] := by
  refine ⟨by decide, by decide, ?_⟩
  exact (c8_observer_self_exclusion ["m0"] [c8rec, c8rec2] c8rec (by decide)).2

/-! C1: creation-surface wrappers are transparent. -/

/-- Claim C1: both interception mechanisms forward the call to the
original creation function on the exact argument list and hand its
result back unchanged. For the v4.3.2 Proxy get trap, a wrapped name
applied to `args` returns exactly the instance the original method
returns on `args`, with tracking as the only state effect, and an
error thrown by the original propagates with the tracker untouched.
The webflow-debug.js overrides behave the same for any monitor
function over any state. -/
theorem c1_creation_wrappers_transparent {σ : Type} (om : String → Option CreateFn)
    (p : String) (f : CreateFn) (s : DbgState) (fid : String) (args : List String)
    (g : CreateFn) (monitor : GsapInst → σ → σ) (ms : σ)
    (hf : om p = some f) (hp : p ∈ creationNames) :
    (∀ inst, f args = Except.ok inst →
      proxyCall om p s fid args =
        some (track s (some inst) (typeForName p) fid, Except.ok inst)) ∧
    (∀ e, f args = Except.error e →
      proxyCall om p s fid args = some (s, Except.error e)) ∧
    (∀ inst, g args = Except.ok inst →
      overrideCreate g monitor ms args = (monitor inst ms, Except.ok inst)) ∧
    (∀ e, g args = Except.error e →
      overrideCreate g monitor ms args = (ms, Except.error e)) := by
  refine ⟨?_, ?_, ?_, ?_⟩
  · intro inst hok
    simp [proxyCall, hf, hp, hok]
  · intro e herr
    simp [proxyCall, hf, hp, herr]
  · intro inst hok
    simp [overrideCreate, hok]
  · intro e herr
    simp [overrideCreate, herr]

/-- Witness for C1: the wrapped "to" method on a concrete gsap object
returns exactly `heroInst` while tracking it. -/
theorem c1_creation_wrappers_transparent_witness :
    c1om "to" = some c1orig ∧ "to" ∈ creationNames ∧
    proxyCall c1om "to" (initState false false) "w" ["x"] =
      some (track (initState false false) (some heroInst) (typeForName "to") "w",
            Except.ok heroInst) := by
  refine ⟨rfl, by decide, ?_⟩
  exact (c1_creation_wrappers_transparent c1om "to" c1orig (initState false false) "w"
      ["x"] c1orig (fun _ n => n + 1) (0 : Nat) rfl (by decide)).1 heroInst rfl


/-! C2: idempotent registration and at-most-once wrapping. -/

/-- The tracker invariant: tracked handles are pairwise distinct, wrap
applications recorded by `attachSTEventWrappers` are pairwise
distinct, and every recorded wrap belongs to the `stWrapped` set. -/
def DbgInv (s : DbgState) : Prop :=
  (s.tracked.map Prod.fst).Nodup ∧ s.stWrapAttach.Nodup ∧
  ∀ h, h ∈ s.stWrapAttach → h ∈ s.stWrapped

theorem track_inv (s : DbgState) (oinst : Option GsapInst) (ty : TType) (fid : String)
    (hs : DbgInv s) : DbgInv (track s oinst ty fid) := by
  obtain ⟨hnd, hga, hgm⟩ := hs
  have hf := track_frame s oinst ty fid
  refine ⟨?_, ?_, ?_⟩
  · rcases hf.2.2.2.2.2.2 with heq | ⟨inst, info, _, hhas, heq⟩
    · rw [heq]; exact hnd
    · rw [heq, List.map_append]
      rw [List.nodup_append]
      refine ⟨hnd, by simp, ?_⟩
      intro a ha hb
      simp at hb
      subst hb
      have : lookupK s.tracked inst.handle = none := by
        unfold hasK at hhas
        exact Option.not_isSome_iff_eq_none.mp (by simp [hhas])
      exact (lookupK_none_iff_not_mem_keys s.tracked inst.handle).mp this ha
  · rw [hf.2.2.2.2.2.1]; exact hga
  · intro h hh
    rw [hf.2.2.2.2.2.1] at hh
    rw [hf.2.2.1]
    exact hgm h hh

theorem attachSTStep_inv (s : DbgState) (inst : GsapInst)
    (hs : DbgInv s) : DbgInv (attachSTStep s inst) := by
  unfold attachSTStep
  split_ifs with hmem
  · exact hs
  · have ht := track_inv s (some inst) TType.scrollTrigger ("st_" ++ toString inst.handle) hs
    have hf := track_frame s (some inst) TType.scrollTrigger ("st_" ++ toString inst.handle)
    refine ⟨ht.1, ?_, ?_⟩
    · show ((track s (some inst) TType.scrollTrigger
          ("st_" ++ toString inst.handle)).stWrapAttach ++ [inst.handle]).Nodup
      rw [hf.2.2.2.2.2.1]
      rw [List.nodup_append]
      refine ⟨hs.2.1, by simp, ?_⟩
      intro a ha hb
      simp at hb
      subst hb
      exact hmem (hs.2.2 _ ha)
    · intro h hh
      have hh2 : h ∈ (track s (some inst) TType.scrollTrigger
          ("st_" ++ toString inst.handle)).stWrapAttach ++ [inst.handle] := hh
      show h ∈ (track s (some inst) TType.scrollTrigger
          ("st_" ++ toString inst.handle)).stWrapped ++ [inst.handle]
      rw [hf.2.2.2.2.2.1] at hh2
      rw [hf.2.2.1]
      rcases List.mem_append.mp hh2 with h1 | h2
      · exact List.mem_append.mpr (Or.inl (hs.2.2 h h1))
      · exact List.mem_append.mpr (Or.inr h2)

theorem attachST_inv (sts : List GsapInst) :
    ∀ s : DbgState, DbgInv s → DbgInv (attachSTEventWrappers s sts) := by
  induction sts with
  | nil => intro s hs; exact hs
  | cons a t ih =>
    intro s hs
    exact ih (attachSTStep s a) (attachSTStep_inv s a hs)

theorem markDone_inv (s : DbgState) (h now : Nat) (hs : DbgInv s) :
    DbgInv (markDone s h now) := by
  unfold markDone
  cases hl : lookupK s.tracked h with
  | none => exact hs
  | some info =>
    have hkeys : ∀ v : TrackInfo, ((setK s.tracked h v).map Prod.fst).Nodup := by
      intro v
      rw [keys_setK]
      exact hs.1
    split_ifs with hh
    · exact ⟨hkeys _, hs.2.1, hs.2.2⟩
    · exact ⟨hkeys _, hs.2.1, hs.2.2⟩

theorem timerFire_inv (s : DbgState) (h t : Nat) (hs : DbgInv s) :
    DbgInv (timerFire s h t) := by
  unfold timerFire
  split_ifs with hmem
  · exact ⟨(keys_eraseK_sublist s.tracked h).nodup hs.1, hs.2.1, hs.2.2⟩
  · exact hs

theorem step_inv (s : DbgState) (op : DbgOp) (hs : DbgInv s) : DbgInv (step s op) := by
  cases op with
  | create oinst ty fid => exact track_inv s oinst ty fid hs
  | complete h now => exact markDone_inv s h now hs
  | fire h t => exact timerFire_inv s h t hs
  | setHold b => exact ⟨hs.1, hs.2.1, hs.2.2⟩
  | refresh sts => exact attachST_inv sts s hs
  | render pl sy =>
    refine ⟨?_, hs.2.1, hs.2.2⟩
    show ((s.tracked.map fun p =>
      (p.fst, sampleProgress (fun h => lookupK pl h) p.fst p.snd)).map Prod.fst).Nodup
    rw [keys_map_entry]
    exact hs.1

theorem run_inv (ops : List DbgOp) :
    ∀ s : DbgState, DbgInv s → DbgInv (run s ops) := by
  induction ops with
  | nil => intro s hs; exact hs
  | cons op t ih =>
    intro s hs
    exact ih (step s op) (step_inv s op hs)

theorem initState_inv (hold0 vars0 : Bool) : DbgInv (initState hold0 vars0) := by
  refine ⟨by simp [initState], by simp [initState], ?_⟩
  intro h hh
  simp [initState] at hh

/-- Claim C2: registering an already-tracked instance changes nothing;
along every event sequence from boot, at most one tracked entry exists
per handle and `attachSTEventWrappers` wraps each ScrollTrigger
instance at most once, no matter how often it is invoked. -/
theorem c2_registration_idempotent (hold0 vars0 : Bool) (ops : List DbgOp) (h : Nat)
    (s : DbgState) (inst : GsapInst) (ty : TType) (fid : String)
    (hs : hasK s.tracked inst.handle = true) :
    track s (some inst) ty fid = s ∧
    ((run (initState hold0 vars0) ops).tracked.map Prod.fst).count h ≤ 1 ∧
    ((run (initState hold0 vars0) ops).stWrapAttach).count h ≤ 1 := by
  have hinv := run_inv ops (initState hold0 vars0) (initState_inv hold0 vars0)
  refine ⟨track_already_tracked s inst ty fid hs, ?_, ?_⟩
  · exact List.nodup_iff_count_le_one.mp hinv.1 h
  · exact List.nodup_iff_count_le_one.mp hinv.2.1 h

/-- Witness for C2 on a concrete trace that registers the same tween
twice and refreshes the same ScrollTrigger twice. -/
theorem c2_registration_idempotent_witness :
    hasK c2state.tracked heroInst.handle = true ∧
    track c2state (some heroInst) TType.tween "z" = c2state ∧
    ((run (initState false false) c2ops).tracked.map Prod.fst).count 1 ≤ 1 ∧
    ((run (initState false false) c2ops).stWrapAttach).count 7 ≤ 1 := by
  refine ⟨by decide, ?_, ?_, ?_⟩
  · exact (c2_registration_idempotent false false c2ops 1 c2state heroInst TType.tween "z"
      (by decide)).1
  · exact (c2_registration_idempotent false false c2ops 1 c2state heroInst TType.tween "z"
      (by decide)).2.1
  · exact (c2_registration_idempotent false false c2ops 7 c2state heroInst TType.tween "z"
      (by decide)).2.2


/-! C3: retention and the hold flag. -/

theorem hasK_track_mono (s : DbgState) (oinst : Option GsapInst) (ty : TType)
    (fid : String) (h : Nat) (hh : hasK s.tracked h = true) :
    hasK (track s oinst ty fid).tracked h = true := by
  rcases (track_frame s oinst ty fid).2.2.2.2.2.2 with heq | ⟨inst, info, _, _, heq⟩
  · rw [heq]; exact hh
  · rw [heq]
    unfold hasK at hh ⊢
    rw [lookupK_append]
    cases hl : lookupK s.tracked h with
    | none => rw [hl] at hh; simp at hh
    | some w => rfl

theorem hasK_attachST_mono (sts : List GsapInst) :
    ∀ s : DbgState, ∀ h : Nat, hasK s.tracked h = true →
    hasK (attachSTEventWrappers s sts).tracked h = true := by
  induction sts with
  | nil => intro s h hh; exact hh
  | cons a t ih =>
    intro s h hh
    refine ih (attachSTStep s a) h ?_
    unfold attachSTStep
    split_ifs with hmem
    · exact hh
    · show hasK (track s (some a) TType.scrollTrigger
        ("st_" ++ toString a.handle)).tracked h = true
      exact hasK_track_mono s (some a) TType.scrollTrigger _ h hh

theorem hasK_markDone (s : DbgState) (h now k : Nat) (hh : hasK s.tracked k = true) :
    hasK (markDone s h now).tracked k = true := by
  unfold markDone
  cases hl : lookupK s.tracked h with
  | none => exact hh
  | some info =>
    split_ifs with hhold
    · show hasK (setK s.tracked h _) k = true
      rw [hasK_setK]
      exact hh
    · show hasK (setK s.tracked h _) k = true
      rw [hasK_setK]
      exact hh

/-- Counterexample for C3 as stated: hold is activated, a tween is
tracked and completes while hold is on, then hold is cleared. The
claim demands that clearing the flag retroactively expires the held
Completed entry; in the final state the entry is still tracked,
still Completed, and no deletion timer is pending, so it can never be
removed by a timer event. -/
theorem c3_counterexample :
    c3end.hold = false ∧
    (lookupK c3end.tracked 1).map TrackInfo.status = some TStatus.completed ∧
    lookupK c3end.tracked 1 ≠ none ∧
    c3end.timers = [] := by decide

/-- Claim C3 (amended): completion with hold off marks the entry
Completed and arms a deletion timer for exactly 3000 ms later, whose
firing removes the entry; completion with hold on marks the entry
Completed but arms no timer; toggling the hold flag never changes the
tracked set or the pending timers (so held Completed entries are never
retroactively expired and survive the flag being cleared); and no
event other than a timer firing ever removes a tracked entry. -/
theorem c3_hold_retention (s : DbgState) (h now t : Nat) (b : Bool) (info : TrackInfo)
    (op : DbgOp) (hl : lookupK s.tracked h = some info) :
    (s.hold = false → markDone s h now =
      { s with tracked := setK s.tracked h ({ info with status := TStatus.completed }),
               timers := s.timers ++ [(h, now + FADE_OUT_MS)] }) ∧
    (s.hold = true → markDone s h now =
      { s with tracked := setK s.tracked h ({ info with status := TStatus.completed }) }) ∧
    ((toggleHold s b).tracked = s.tracked ∧ (toggleHold s b).timers = s.timers) ∧
    ((h, t) ∈ s.timers → lookupK (timerFire s h t).tracked h = none) ∧
    (op.isFire = false → hasK (step s op).tracked h = true) := by
  have hhk : hasK s.tracked h = true := by
    unfold hasK
    rw [hl]
    rfl
  refine ⟨?_, ?_, ⟨rfl, rfl⟩, ?_, ?_⟩
  · intro hhold
    unfold markDone
    rw [hl]
    simp [hhold]
  · intro hhold
    unfold markDone
    rw [hl]
    simp [hhold]
  · intro hmem
    unfold timerFire
    rw [if_pos hmem]
    exact lookupK_eraseK s.tracked h
  · intro hnf
    cases op with
    | create oinst ty fid => exact hasK_track_mono s oinst ty fid h hhk
    | complete k now2 => exact hasK_markDone s k now2 h hhk
    | fire k t2 => simp [DbgOp.isFire] at hnf
    | setHold b2 => exact hhk
    | refresh sts => exact hasK_attachST_mono sts s h hhk
    | render pl sy =>
      show hasK ((renderLoop s (fun k => lookupK pl k) sy).fst).tracked h = true
      unfold hasK renderLoop
      rw [lookupK_map_entry s.tracked (fun k i => sampleProgress (fun k2 => lookupK pl k2) k i) h]
      unfold hasK at hhk
      cases hl2 : lookupK s.tracked h with
      | none => rw [hl2] at hhk; simp at hhk
      | some w => rfl

/-- Witness for C3 (amended) at a concrete tracked entry: completion
with hold off arms the 3000 ms timer. -/
theorem c3_hold_retention_witness :
    lookupK c2state.tracked 1 = some c2info ∧
    c2state.hold = false ∧
    markDone c2state 1 100 =
      { c2state with
          tracked := setK c2state.tracked 1 ({ c2info with status := TStatus.completed }),
          timers := c2state.timers ++ [(1, 100 + FADE_OUT_MS)] } := by
  refine ⟨by decide, by decide, ?_⟩
  exact (c3_hold_retention c2state 1 100 7 true c2info (DbgOp.setHold true)
      (by decide)).1 (by decide)


/-! C7: the render loop. -/

/-- Counterexample for C7 as stated: one render pass over a state whose
single entry has stored progress 0, with the runtime reporting
progress 1, mutates the tracker: the entry progress field becomes 1,
so the pass does not leave every tracked entry unchanged. -/
theorem c7_counterexample :
    (renderLoop c7state (fun _ => some 1) 0).fst ≠ c7state ∧
    (lookupK (renderLoop c7state (fun _ => some 1) 0).fst.tracked 1).map
      TrackInfo.progress = some 1 ∧
    (lookupK c7state.tracked 1).map TrackInfo.progress = some 0 := by decide

/-- Claim C7 (amended): one render pass preserves every state field
except the per-entry progress, which is overwritten with the freshly
sampled runtime value (and kept unchanged when the read throws); the
set of tracked handles and all other entry fields are untouched, the
overlay output is a function of the state and the sampled readings,
and repeating the pass on the same readings reproduces the same state
and output (idempotence). -/
theorem c7_render_effect (s : DbgState) (prog : Nat → Option Int) (sy : Int) (h : Nat)
    (info : TrackInfo) :
    ((renderLoop s prog sy).fst.hold = s.hold ∧
     (renderLoop s prog sy).fst.varsFlag = s.varsFlag ∧
     (renderLoop s prog sy).fst.stWrapped = s.stWrapped ∧
     (renderLoop s prog sy).fst.timers = s.timers ∧
     (renderLoop s prog sy).fst.logQueue = s.logQueue ∧
     (renderLoop s prog sy).fst.stWrapAttach = s.stWrapAttach) ∧
    (renderLoop s prog sy).fst.tracked.map Prod.fst = s.tracked.map Prod.fst ∧
    lookupK (renderLoop s prog sy).fst.tracked h =
      (lookupK s.tracked h).map (sampleProgress prog h) ∧
    ((sampleProgress prog h info).id = info.id ∧
     (sampleProgress prog h info).ty = info.ty ∧
     (sampleProgress prog h info).status = info.status ∧
     (sampleProgress prog h info).vars = info.vars ∧
     (sampleProgress prog h info).target = info.target ∧
     ((sampleProgress prog h info).progress = info.progress ∨
      prog h = some (sampleProgress prog h info).progress)) ∧
    renderLoop (renderLoop s prog sy).fst prog sy = renderLoop s prog sy := by
  have hsp : ∀ (k : Nat) (i : TrackInfo),
      sampleProgress prog k (sampleProgress prog k i) = sampleProgress prog k i := by
    intro k i
    cases hp : prog k <;> simp [sampleProgress, hp]
  refine ⟨⟨rfl, rfl, rfl, rfl, rfl, rfl⟩, ?_, ?_, ?_, ?_⟩
  · exact keys_map_entry s.tracked (fun k i => sampleProgress prog k i)
  · exact lookupK_map_entry s.tracked (fun k i => sampleProgress prog k i) h
  · cases hp : prog h <;> simp [sampleProgress, hp]
  · have ht2 : ∀ l : List (Nat × TrackInfo),
        (l.map (fun p => (p.fst, sampleProgress prog p.fst p.snd))).map
          (fun p => (p.fst, sampleProgress prog p.fst p.snd)) =
        l.map (fun p => (p.fst, sampleProgress prog p.fst p.snd)) := by
      intro l
      induction l with
      | nil => rfl
      | cons p t ih => simp [hsp, ih]
    show renderLoop
        { s with tracked := (s.tracked.map (fun p => (p.fst, sampleProgress prog p.fst p.snd))) }
        prog sy =
      renderLoop s prog sy
    unfold renderLoop
    dsimp only
    rw [ht2 s.tracked]


/-! C5: completedAt is stamped exactly on Completed. -/

/-- The per-object invariant of claim C5. -/
def PropsInv (q : Props) : Prop :=
  q.status = PStatus.completed ↔ q.completedAt ≠ none

/-- Every props object in the heap satisfies the C5 invariant. -/
def WFA (s : AnimState) : Prop :=
  ∀ k q, lookupK s.heap k = some q → PropsInv q

theorem wfa_append (heap : List (Nat × Props)) (o : Nat) (v : Props)
    (hw : ∀ k q, lookupK heap k = some q → PropsInv q) (hv : PropsInv v) :
    ∀ k q, lookupK (heap ++ [(o, v)]) k = some q → PropsInv q := by
  intro k q hl
  rw [lookupK_append] at hl
  cases hl2 : lookupK heap k with
  | some w =>
    rw [hl2] at hl
    simp at hl
    exact hl ▸ hw k w hl2
  | none =>
    rw [hl2] at hl
    by_cases ho : o = k
    · simp [ho] at hl
      exact hl ▸ hv
    · simp [ho] at hl

theorem wfa_setK (heap : List (Nat × Props)) (o : Nat) (v : Props)
    (hw : ∀ k q, lookupK heap k = some q → PropsInv q) (hv : PropsInv v) :
    ∀ k q, lookupK (setK heap o v) k = some q → PropsInv q := by
  intro k q hl
  rcases lookupK_setK_cases heap o v k q hl with ⟨_, hq⟩ | hold
  · exact hq ▸ hv
  · exact hw k q hold

theorem registerTween_wfa (s : AnimState) (tw : Tween) (en : Bool)
    (hw : WFA s) : WFA (registerTween s tw en) := by
  unfold registerTween
  split_ifs with hen
  · cases hl : lookupK s.amap tw.handle with
    | some o => exact hw
    | none =>
      intro k q hq
      refine wfa_append s.heap s.nextObj (initProps tw) hw ?_ k q hq
      simp [PropsInv, initProps]
  · exact hw

theorem onUpdate_wfa (s : AnimState) (tw : Tween) (now : Nat) (read : String → Int)
    (en : Bool) (hw : WFA s) : WFA (onUpdate s tw now read en) := by
  cases hen : en with
  | false => simpa [onUpdate] using hw
  | true =>
    cases hm : lookupK s.amap tw.handle with
    | some o =>
      simp only [onUpdate, hm, eq_self_iff_true, if_true]
      split_ifs with hth htg
      · exact hw
      · intro k q hq
        refine wfa_setK s.heap o _ hw ?_ k q hq
        simp [PropsInv]
      · intro k q hq
        refine wfa_setK s.heap o _ hw ?_ k q hq
        simp [PropsInv]
    | none =>
      simp only [onUpdate, hm, eq_self_iff_true, if_true]
      have hbase : ∀ k q, lookupK (s.heap ++ [(s.nextObj, reinitProps tw now)]) k = some q →
          PropsInv q := by
        intro k q hq
        refine wfa_append s.heap s.nextObj (reinitProps tw now) hw ?_ k q hq
        simp [PropsInv, reinitProps]
      split_ifs with hth htg
      · exact fun k q hq => hbase k q hq
      · intro k q hq
        refine wfa_setK (s.heap ++ [(s.nextObj, reinitProps tw now)]) s.nextObj _ hbase ?_ k q hq
        simp [PropsInv]
      · intro k q hq
        refine wfa_setK (s.heap ++ [(s.nextObj, reinitProps tw now)]) s.nextObj _ hbase ?_ k q hq
        simp [PropsInv]

theorem onComplete_wfa (s : AnimState) (tw : Tween) (now : Nat) (en : Bool)
    (hw : WFA s) : WFA (onComplete s tw now en) := by
  unfold onComplete
  split_ifs with hen
  · cases hm : lookupK s.amap tw.handle with
    | some o =>
      intro k q hq
      refine wfa_setK s.heap o _ hw ?_ k q hq
      simp [PropsInv]
    | none => exact hw
  · exact hw

theorem timerCb_wfa (s : AnimState) (tm : EvTimer) (hw : WFA s) : WFA (timerCb s tm) := by
  have hh : (timerCb s tm).heap = s.heap := by
    unfold timerCb
    split_ifs with hmem
    · dsimp only
      cases hm : lookupK s.amap tm.tween with
      | some o =>
        dsimp only
        split_ifs <;> rfl
      | none => rfl
    · rfl
  intro k q hq
  rw [hh] at hq
  exact hw k q hq

theorem uiTick_wfa (s : AnimState) (tw : Tween) (active : Bool) (read : String → Int)
    (en : Bool) (hw : WFA s) : WFA (uiTick s tw active read en) := by
  cases hen : en with
  | false => simpa [uiTick] using hw
  | true =>
    cases hm : lookupK s.amap tw.handle with
    | none => simpa [uiTick, hm] using hw
    | some o =>
      cases hp : lookupK s.heap o with
      | none => simpa [uiTick, hm, hp] using hw
      | some p =>
        simp only [uiTick, hm, hp, eq_self_iff_true, if_true]
        split_ifs with hact
        · intro k q hq
          refine wfa_setK s.heap o _ hw ?_ k q hq
          have hpi := hw o p hp
          simpa [PropsInv] using hpi
        · exact hw

theorem stepB_wfa (s : AnimState) (ev : AnimEv) (hw : WFA s) : WFA (stepB s ev) := by
  cases ev with
  | reg tw en => exact registerTween_wfa s tw en hw
  | upd tw now read en => exact onUpdate_wfa s tw now read en hw
  | done tw now en => exact onComplete_wfa s tw now en hw
  | fire tm => exact timerCb_wfa s tm hw
  | ui tw active read en => exact uiTick_wfa s tw active read en hw
  | clear => exact hw

theorem runB_wfa (evs : List AnimEv) : ∀ s : AnimState, WFA s → WFA (runB s evs) := by
  induction evs with
  | nil => intro s hw; exact hw
  | cons ev t ih =>
    intro s hw
    exact ih (stepB s ev) (stepB_wfa s ev hw)

theorem initB_wfa : WFA initB := by
  intro k q hq
  simp [initB, lookupK] at hq

/-- Claim C5: along every event trace from boot, every props object of
a tracked entry has `completedAt` non-null exactly when its status is
Completed; moreover the completion handler stamps `completedAt` with
the completion clock, and a past-throttle update callback resets the
entry to playing with `completedAt` null. -/
theorem c5_completed_iff_stamped (evs : List AnimEv) (h o : Nat) (p : Props)
    (s : AnimState) (tw : Tween) (now o2 : Nat) (q : Props)
    (hm : lookupK (runB initB evs).amap h = some o)
    (hp : lookupK (runB initB evs).heap o = some p) :
    (p.status = PStatus.completed ↔ p.completedAt ≠ none) ∧
    (lookupK s.amap tw.handle = some o2 → lookupK s.heap o2 = some q →
      lookupK (onComplete s tw now true).heap o2 =
        some { q with status := PStatus.completed, completedAt := some now }) ∧
    (lookupK s.amap tw.handle = some o2 → lookupK s.heap o2 = some q →
      ∀ read : String → Int, ¬ (now - q.lastUpdated < UPDATE_THROTTLE_INTERVAL) →
      ∃ r, lookupK (onUpdate s tw now read true).heap o2 = some r ∧
        r.status = PStatus.playing ∧ r.completedAt = none) := by
  refine ⟨runB_wfa evs initB initB_wfa o p hp, ?_, ?_⟩
  · intro hm2 hp2
    unfold onComplete
    rw [if_pos rfl, hm2]
    dsimp only
    rw [hp2]
    exact lookupK_setK_self s.heap o2 _ q hp2
  · intro hm2 hp2 read hth
    unfold onUpdate
    rw [if_pos rfl, hm2]
    dsimp only
    rw [hp2]
    dsimp only [Option.getD_some]
    rw [if_neg hth]
    refine ⟨_, lookupK_setK_self s.heap o2 _ q hp2, rfl, rfl⟩

/-- Witness for C5 on a one-event trace. -/
theorem c5_completed_iff_stamped_witness :
    lookupK (runB initB c5evs).amap 3 = some 0 ∧
    lookupK (runB initB c5evs).heap 0 = some (initProps c5tw) ∧
    ((initProps c5tw).status = PStatus.completed ↔ (initProps c5tw).completedAt ≠ none) := by
  refine ⟨by decide, by decide, ?_⟩
  exact (c5_completed_iff_stamped c5evs 3 0 (initProps c5tw) initB c5tw 0 0 defaultProps
      (by decide) (by decide)).1

/-! C6: the per-entry sampling throttle. -/

/-- Counterexample for C6 as stated: in the trace behind `c6sA`, update
callbacks hit the entry at t = 100 (sampled), t = 140 (throttled) and
t = 180. The callbacks at 140 and 180 are only 40 ms apart, less than
the 50 ms interval, yet the one at 180 does perform a read and the
live snapshot changes between them. -/
theorem c6_counterexample :
    (180 : Nat) - 140 < UPDATE_THROTTLE_INTERVAL ∧
    (lookupK c6sB.heap 0).map Props.current ≠
      (lookupK c6sA.heap 0).map Props.current := by decide

/-- Claim C6 (amended): the throttle is measured from the per-entry
last-sampled timestamp, not from the previous callback: a callback
arriving less than 50 ms after the entry last sampled does nothing at
all (no read, snapshot and timestamp unchanged); a callback at or past
the interval stamps the entry with its own time; hence whenever a
callback changes the state, at least 50 ms have elapsed since the last
sample, so sampling never runs more often than the interval. -/
theorem c6_sampling_throttled (s : AnimState) (tw : Tween) (now : Nat)
    (read : String → Int) (o : Nat) (p : Props)
    (hm : lookupK s.amap tw.handle = some o)
    (hp : lookupK s.heap o = some p) :
    (now - p.lastUpdated < UPDATE_THROTTLE_INTERVAL → onUpdate s tw now read true = s) ∧
    (¬ now - p.lastUpdated < UPDATE_THROTTLE_INTERVAL →
      ∃ r, lookupK (onUpdate s tw now read true).heap o = some r ∧
        r.lastUpdated = now) ∧
    (onUpdate s tw now read true ≠ s →
      UPDATE_THROTTLE_INTERVAL ≤ now - p.lastUpdated) := by
  have ha : now - p.lastUpdated < UPDATE_THROTTLE_INTERVAL →
      onUpdate s tw now read true = s := by
    intro hth
    unfold onUpdate
    rw [if_pos rfl, hm]
    dsimp only
    rw [hp]
    dsimp only [Option.getD_some]
    rw [if_pos hth]
  refine ⟨ha, ?_, ?_⟩
  · intro hth
    unfold onUpdate
    rw [if_pos rfl, hm]
    dsimp only
    rw [hp]
    dsimp only [Option.getD_some]
    rw [if_neg hth]
    refine ⟨_, lookupK_setK_self s.heap o _ p hp, ?_⟩
    by_cases htg : tw.hasTarget <;> simp [htg]
  · intro hne
    by_contra hc
    exact hne (ha (Nat.not_le.mp hc))

/-- Witness for C6 (amended): the callback at t = 140 arrives 40 ms
after the entry was last sampled and leaves the state untouched. -/
theorem c6_sampling_throttled_witness :
    lookupK c6sA.amap 0 = some 0 ∧
    lookupK c6sA.heap 0 = some c6props ∧
    140 - c6props.lastUpdated < UPDATE_THROTTLE_INTERVAL ∧
    onUpdate c6sA c6tw 140 (fun _ => (140 : Int)) true = c6sA := by
  refine ⟨by decide, by decide, by decide, ?_⟩
  exact (c6_sampling_throttled c6sA c6tw 140 (fun _ => (140 : Int)) 0 c6props
      (by decide) (by decide)).1 (by decide)

/-! C10: the stale eviction timer. -/

/-- Claim C10 evaluated on the failing trace: the completion at
t = 1000 stamps `completedAt = 1000` and arms the timeout capturing
props object 0; the update at t = 2000 resets the same object to
playing with `completedAt` null, so the value no longer equals the one
captured at arming; yet firing the timeout still deletes the entry,
because the captured `props` aliases the stored object and the guard
compares the field with itself. -/
theorem c10_stale_timer_still_deletes :
    (lookupK (runB initB [AnimEv.reg c10tw true, AnimEv.done c10tw 1000 true]).heap 0).map
      Props.completedAt = some (some 1000) ∧
    (lookupK c10s3.heap 0).map Props.completedAt = some none ∧
    (lookupK c10s3.heap 0).map Props.status = some PStatus.playing ∧
    c10s3.timers = [c10timer] ∧
    lookupK (stepB c10s3 (AnimEv.fire c10timer)).amap 0 = none := by decide

end UCWeb
